import Mathlib

/-!
Shallow embedding of the ol01-k3s-backup pipeline.

Two Python sources are embedded:
  - src/backup_k3s.py        (namespace BackupK3s): run_command, get_k3s_info,
    backup_k3s, and its own upload_to_s3;
  - src/aws_merged_backup_script.py (namespace AwsMerged): upload_to_s3.

External effects (process invocations, filesystem writes, shutil.copy2 calls,
log records) are captured as explicit event traces.  The host environment
(what each external command returns, which directories exist, what a
directory listing contains, which S3 uploads would raise) is a parameter, so
every path through the Python control flow is represented.  Machine-level
details that the scripts never branch on (file permissions, inode metadata)
are not modelled; shutil.copy2 is modelled as a single copy2 event, whose
documented semantics is a content copy that also preserves file metadata
(timestamps).
-/

namespace K3sBackupSpec

/-- Python logging levels used by the two scripts. -/
inductive LogLevel where
  | debug
  | info
  | warning
  | error
deriving Repr, DecidableEq

/-- Result of one external process invocation, as subprocess.run captures it:
exit code, stdout text, stderr text. -/
structure CmdResult where
  exitCode : Nat
  stdout : String
  stderr : String
deriving Repr, DecidableEq

/-- One observable effect of backup_k3s.py: an external command invocation, a
log record, a file write (open(path, "w"); f.write(content)), a
shutil.copy2(src, dst) call (content copy preserving metadata/timestamps), or
an os.makedirs call. -/
inductive Event where
  | cmd (args : List String)
  | log (level : LogLevel) (msg : String)
  | write (path : String) (content : String)
  | copy2 (src : String) (dst : String)
  | mkdirs (path : String)
deriving Repr, DecidableEq

/-- Host environment as seen by backup_k3s.py: what subprocess.run returns
for each argument vector, the result of the os.path.exists check on the etcd
data directory, whether the static manifests directory exists, and the
os.listdir listing (direct entry names only) of that directory. -/
structure Env where
  runCmd : List String → CmdResult
  usesEtcd : Bool
  manifestsDirExists : Bool
  manifestEntries : List String

namespace BackupK3s

/-- Path constant from backup_k3s.py line 94. -/
def manifests_dir : String := "/var/lib/rancher/k3s/server/manifests"

/-- Embedding of the Python str.endswith suffix test: true iff the last
characters of s are exactly the characters of suffix (truncated Nat
subtraction makes a too-long suffix compare unequal, as it should). -/
def endswith (s suffix : String) : Bool :=
  suffix.toList == s.toList.drop (s.toList.length - suffix.toList.length)

/-- Embedding of run_command (backup_k3s.py lines 36-45): run the command; on
exit code 0 return stdout, otherwise catch subprocess.CalledProcessError, log
two error records and return the captured stderr.  It never raises. -/
def run_command (env : Env) (command : List String) : String × List Event :=
  let r := env.runCmd command
  if r.exitCode = 0 then
    (r.stdout,
      [Event.log .debug ("Running command: " ++ String.intercalate " " command),
       Event.cmd command,
       Event.log .debug ("Command output: " ++ r.stdout)])
  else
    (r.stderr,
      [Event.log .debug ("Running command: " ++ String.intercalate " " command),
       Event.cmd command,
       Event.log .error ("Command failed with exit code " ++ toString r.exitCode),
       Event.log .error ("Error output: " ++ r.stderr)])

/-- The k3s_info dict of get_k3s_info, in insertion order: version text,
uses_etcd boolean, service status text. -/
structure K3sInfo where
  version : String
  uses_etcd : Bool
  service_status : String
deriving Repr, DecidableEq

/-- Embedding of get_k3s_info (backup_k3s.py lines 47-60): advisory version
command, direct filesystem check for the etcd data directory, advisory
service-status command. -/
def get_k3s_info (env : Env) : K3sInfo × List Event :=
  let v := run_command env ["k3s", "--version"]
  let st := run_command env ["systemctl", "is-active", "k3s"]
  (⟨v.1, env.usesEtcd, st.1⟩,
   Event.log .info "Gathering K3s information" :: (v.2 ++ st.2))

/-- The fixed resource list of backup_k3s.py line 85. -/
def resources : List String :=
  ["deployments", "services", "configmaps", "secrets", "ingresses", "pv", "pvc"]

/-- Python repr of a bool, as an f-string renders it into k3s_info.txt. -/
def pyBool (b : Bool) : String := if b then "True" else "False"

/-- The k3s_info.txt content: one "key: value" line per k3s_info dict entry,
in insertion order (backup_k3s.py lines 106-108). -/
def infoText (i : K3sInfo) : String :=
  "version: " ++ i.version ++ "\n" ++
  "uses_etcd: " ++ pyBool i.uses_etcd ++ "\n" ++
  "service_status: " ++ i.service_status ++ "\n"

/-- Embedding of backup_k3s (backup_k3s.py lines 62-110) as the trace of its
observable effects, in program order.  Collection paths are joined with "/"
(os.path.join on the POSIX host the script targets; its data-directory and
manifests paths are hardcoded POSIX absolute paths). -/
def backup_k3s (env : Env) (local_backup_path : String) : List Event :=
  let info := get_k3s_info env
  let k3s_info := info.1
  let etcd_backup_path := local_backup_path ++ "/etcd-backup/etcd"
  let manifests_backup_path := local_backup_path ++ "/manifests-backup/manifests"
  let evDirs := [Event.mkdirs etcd_backup_path, Event.mkdirs manifests_backup_path]
  let evEtcd :=
    if k3s_info.uses_etcd then
      (run_command env ["k3s", "etcd-snapshot", "save", "--dir", etcd_backup_path]).2
        ++ [Event.log .info "Etcd backup completed"]
    else
      [Event.log .info "Skipping etcd backup as it is not being used"]
  let evRes := (resources.map (fun resource =>
      let out := run_command env ["kubectl", "get", resource, "-A", "-o", "yaml"]
      let file_path := local_backup_path ++ "/" ++ resource ++ ".yaml"
      out.2 ++ [Event.write file_path out.1])).flatten
  let evMan :=
    if env.manifestsDirExists then
      (env.manifestEntries.map (fun filename =>
        if endswith filename ".yaml" then
          [Event.copy2 (manifests_dir ++ "/" ++ filename)
                       (manifests_backup_path ++ "/" ++ filename)]
        else [])).flatten
    else
      [Event.log .warning ("Manifests directory not found: " ++ manifests_dir)]
  let evTxt := [Event.write (local_backup_path ++ "/k3s_info.txt") (infoText k3s_info)]
  Event.log .info ("Starting K3s backup to " ++ local_backup_path) ::
    (info.2 ++ evDirs ++ evEtcd ++ evRes ++ evMan ++ evTxt
      ++ [Event.log .info "K3s backup completed successfully"])

end BackupK3s

/-! Filesystem model for the upload engines.  Both scripts enumerate the
staging area with os.walk(local_path) and, for every regular file yielded,
join the walk root with the per-directory path components (os.path.join) and
take the path relative to the root (os.path.relpath).  The staging area is
therefore modelled by exactly what that walk yields: the list rels of the
regular files present under the root at walk time, each given by its
relative path components (in walk order).  The host path separator (os.sep,
used by os.path.join and os.path.relpath) is a parameter, so both POSIX
("/") and other host conventions are representable. -/

/-- One upload task: a local file (absolute path) paired with its remote
object key. -/
structure UploadTask where
  local_file : String
  s3_key : String
deriving Repr, DecidableEq

/-- Outcome of one upload task: success, or failure with the cause text. -/
inductive UploadResult where
  | ok (task : UploadTask)
  | failed (task : UploadTask) (cause : String)
deriving Repr, DecidableEq

/-- The task an UploadResult reports on. -/
def UploadResult.task : UploadResult → UploadTask
  | .ok t => t
  | .failed t _ => t

/-- Observable effects of an upload engine: os.walk yielding one file
(enumeration), one upload attempt against the object store, or a log
record. -/
inductive UEvent where
  | walkYield (rel : List String)
  | attempt (local_file : String) (s3_key : String) (ok : Bool)
  | log (level : LogLevel) (msg : String)
deriving Repr, DecidableEq

/-- S3 side of the environment: for each local file path, none means
upload_file succeeds, some cause means it raises with that cause; listKeys is
what list_objects_v2 returns for the verification pass (none: it raises a
ClientError). -/
structure S3Env where
  uploadErr : String → Option String
  listKeys : Option (List String)

/-- Local absolute path of a walked file: os.path.join(root, file), where the
walk root is the staging path — host-separator joins throughout. -/
def localFileOf (sep local_path : String) (rel : List String) : String :=
  local_path ++ sep ++ String.intercalate sep rel

namespace AwsMerged

/-- Task built by aws_merged_backup_script.py lines 131-134: relative_path =
os.path.relpath(local_file, local_path) (host separators), s3_key =
os.path.join(prefix, relative_path) — also a host-separator join. -/
def mkTask (sep local_path pfx : String) (rel : List String) : UploadTask :=
  ⟨localFileOf sep local_path rel, pfx ++ sep ++ String.intercalate sep rel⟩

/-- Events and result of one attempt of the upload loop (lines 142-150):
ClientError and any other exception are caught, logged, and the loop
continues, so every task yields exactly one independent outcome. -/
def attemptUpload (env : S3Env) (t : UploadTask) : List UEvent × UploadResult :=
  match env.uploadErr t.local_file with
  | none =>
      ([UEvent.attempt t.local_file t.s3_key true,
        UEvent.log .info ("Successfully uploaded " ++ t.local_file ++ " to " ++ t.s3_key)],
       UploadResult.ok t)
  | some e =>
      ([UEvent.attempt t.local_file t.s3_key false,
        UEvent.log .error ("Error uploading " ++ t.local_file ++ ": " ++ e)],
       UploadResult.failed t e)

/-- Events of the verification pass (lines 154-165): list objects under the
prefix and log what was found; any exception is caught and logged. -/
def verifyEvents (env : S3Env) (bucket pfx : String) : List UEvent :=
  UEvent.log .info ("Verifying uploads in s3://" ++ bucket ++ "/" ++ pfx) ::
    match env.listKeys with
    | some keys =>
        UEvent.log .info ("Found " ++ toString keys.length ++ " files in S3 bucket") ::
          keys.map (fun k => UEvent.log .info ("Verified file in S3: s3://" ++ bucket ++ "/" ++ k))
    | none => [UEvent.log .error "Error verifying uploads"]

/-- Embedding of upload_to_s3 (aws_merged_backup_script.py lines 119-165).
localExists is os.path.exists(local_path).  If the path is missing: one error
log, empty result.  Otherwise the walk builds the complete files_to_upload
list first; if it is empty: warning log, empty result.  Otherwise every task
is attempted in order with per-task exception handling, then the advisory
verification pass runs.  The function is total: every exception path in the
source is caught, so it never raises. -/
def upload_to_s3 (sep : String) (env : S3Env) (local_path bucket pfx : String)
    (localExists : Bool) (rels : List (List String)) : List UEvent × List UploadResult :=
  let ev0 := [UEvent.log .info
    ("Starting upload to S3 bucket " ++ bucket ++ " with prefix " ++ pfx)]
  if !localExists then
    (ev0 ++ [UEvent.log .error ("Local backup path does not exist: " ++ local_path)], [])
  else
    let files_to_upload := rels.map (mkTask sep local_path pfx)
    let evWalk := rels.map UEvent.walkYield
    if files_to_upload.isEmpty then
      (ev0 ++ evWalk ++ [UEvent.log .warning ("No files found to upload in " ++ local_path)],
       [])
    else
      let outcomes := files_to_upload.map (attemptUpload env)
      (ev0 ++ evWalk
        ++ [UEvent.log .info
             ("Found " ++ toString files_to_upload.length ++ " files to upload")]
        ++ (outcomes.map Prod.fst).flatten
        ++ [UEvent.log .info "S3 upload process completed"]
        ++ verifyEvents env bucket pfx,
       outcomes.map Prod.snd)

end AwsMerged

namespace BackupK3s

/-- Task built by backup_k3s.py lines 117-119: relative_path =
os.path.relpath(local_file, local_backup_path) (host separators), but s3_key
is the f-string prefix + "/" + relative_path — literal forward slash after
the prefix, host separators inside the relative part. -/
def mkTask (sep local_backup_path s3_pfx : String) (rel : List String) : UploadTask :=
  ⟨localFileOf sep local_backup_path rel, s3_pfx ++ "/" ++ String.intercalate sep rel⟩

/-- The walk-and-upload loop of backup_k3s.py lines 115-123: each file is
uploaded as os.walk yields it; s3_client.upload_file is not wrapped in any
exception handler, so the first failure raises out of the loop and the
remaining files are never reached.  Returns the events up to that point and
some cause if an exception propagated. -/
def uploadLoop (sep : String) (env : S3Env) (local_backup_path s3_pfx : String) :
    List (List String) → List UEvent × Option String
  | [] => ([], none)
  | rel :: rest =>
    let t := mkTask sep local_backup_path s3_pfx rel
    match env.uploadErr t.local_file with
    | some e =>
        ([UEvent.walkYield rel, UEvent.attempt t.local_file t.s3_key false], some e)
    | none =>
        let tail := uploadLoop sep env local_backup_path s3_pfx rest
        (UEvent.walkYield rel :: UEvent.attempt t.local_file t.s3_key true :: tail.1,
         tail.2)

/-- Embedding of upload_to_s3 (backup_k3s.py lines 112-125).  os.walk on a
missing or empty staging path yields nothing (walk never raises), so those
cases complete with no per-file events; an upload exception propagates to the
caller (the some case) and the final success log is then never reached. -/
def upload_to_s3 (sep : String) (env : S3Env)
    (local_backup_path s3_bucket s3_pfx : String) (rels : List (List String)) :
    List UEvent × Option String :=
  let hd := UEvent.log .info
    ("Uploading backup to S3 bucket " ++ s3_bucket ++ " with prefix " ++ s3_pfx)
  let body := uploadLoop sep env local_backup_path s3_pfx rels
  match body.2 with
  | none => (hd :: body.1 ++ [UEvent.log .info "S3 upload completed successfully"], none)
  | some e => (hd :: body.1, some e)

end BackupK3s

/-! Trace projections used in the statements: the command invocations, file
writes, and copy2 calls appearing in a collection trace, in order; the walk
yields and upload attempts of an upload trace. -/

/-- The argument vectors of all external commands invoked, in order. -/
def cmdsOf (evs : List Event) : List (List String) :=
  evs.filterMap fun e => match e with | .cmd c => some c | _ => none

/-- The (path, content) pairs of all file writes, in order. -/
def writesOf (evs : List Event) : List (String × String) :=
  evs.filterMap fun e => match e with | .write p c => some (p, c) | _ => none

/-- The (src, dst) pairs of all shutil.copy2 calls, in order. -/
def copiesOf (evs : List Event) : List (String × String) :=
  evs.filterMap fun e => match e with | .copy2 s d => some (s, d) | _ => none

/-- The relative paths yielded by os.walk during an upload, in order. -/
def yieldsOf (evs : List UEvent) : List (List String) :=
  evs.filterMap fun e => match e with | .walkYield r => some r | _ => none

/-- The (local file, key, succeeded) triples of all upload attempts, in order. -/
def attemptsOf (evs : List UEvent) : List (String × String × Bool) :=
  evs.filterMap fun e => match e with | .attempt f k b => some (f, k, b) | _ => none

/-- Whether the event is an upload attempt. -/
def UEvent.isAttempt : UEvent → Bool
  | .attempt _ _ _ => true
  | _ => false

/-- Whether the event is an os.walk yield. -/
def UEvent.isYield : UEvent → Bool
  | .walkYield _ => true
  | _ => false

/-- Enumeration is not interleaved with uploading: once any upload attempt
has happened, the walk yields no further file. -/
def noYieldAfterAttempt (evs : List UEvent) : Bool :=
  (evs.dropWhile (fun e => ! e.isAttempt)).all (fun e => ! e.isYield)

@[simp] theorem flatten_map_singleton {α β : Type} (g : α → β) (l : List α) :
    (l.map (fun a => [g a])).flatten = l.map g := by
  induction l <;> simp [*]

@[simp] theorem cmdsOf_nil : cmdsOf [] = [] := rfl

@[simp] theorem cmdsOf_cons_cmd (c : List String) (t : List Event) :
    cmdsOf (Event.cmd c :: t) = c :: cmdsOf t := rfl

@[simp] theorem cmdsOf_cons_log (l : LogLevel) (m : String) (t : List Event) :
    cmdsOf (Event.log l m :: t) = cmdsOf t := rfl

@[simp] theorem cmdsOf_cons_write (p c : String) (t : List Event) :
    cmdsOf (Event.write p c :: t) = cmdsOf t := rfl

@[simp] theorem cmdsOf_cons_copy2 (s d : String) (t : List Event) :
    cmdsOf (Event.copy2 s d :: t) = cmdsOf t := rfl

@[simp] theorem cmdsOf_cons_mkdirs (p : String) (t : List Event) :
    cmdsOf (Event.mkdirs p :: t) = cmdsOf t := rfl

@[simp] theorem cmdsOf_append (a b : List Event) :
    cmdsOf (a ++ b) = cmdsOf a ++ cmdsOf b := List.filterMap_append a b _

@[simp] theorem cmdsOf_flatten (L : List (List Event)) :
    cmdsOf L.flatten = (L.map cmdsOf).flatten := List.filterMap_flatten _ _

@[simp] theorem writesOf_nil : writesOf [] = [] := rfl

@[simp] theorem writesOf_cons_cmd (c : List String) (t : List Event) :
    writesOf (Event.cmd c :: t) = writesOf t := rfl

@[simp] theorem writesOf_cons_log (l : LogLevel) (m : String) (t : List Event) :
    writesOf (Event.log l m :: t) = writesOf t := rfl

@[simp] theorem writesOf_cons_write (p c : String) (t : List Event) :
    writesOf (Event.write p c :: t) = (p, c) :: writesOf t := rfl

@[simp] theorem writesOf_cons_copy2 (s d : String) (t : List Event) :
    writesOf (Event.copy2 s d :: t) = writesOf t := rfl

@[simp] theorem writesOf_cons_mkdirs (p : String) (t : List Event) :
    writesOf (Event.mkdirs p :: t) = writesOf t := rfl

@[simp] theorem writesOf_append (a b : List Event) :
    writesOf (a ++ b) = writesOf a ++ writesOf b := List.filterMap_append a b _

@[simp] theorem writesOf_flatten (L : List (List Event)) :
    writesOf L.flatten = (L.map writesOf).flatten := List.filterMap_flatten _ _

@[simp] theorem copiesOf_nil : copiesOf [] = [] := rfl

@[simp] theorem copiesOf_cons_cmd (c : List String) (t : List Event) :
    copiesOf (Event.cmd c :: t) = copiesOf t := rfl

@[simp] theorem copiesOf_cons_log (l : LogLevel) (m : String) (t : List Event) :
    copiesOf (Event.log l m :: t) = copiesOf t := rfl

@[simp] theorem copiesOf_cons_write (p c : String) (t : List Event) :
    copiesOf (Event.write p c :: t) = copiesOf t := rfl

@[simp] theorem copiesOf_cons_copy2 (s d : String) (t : List Event) :
    copiesOf (Event.copy2 s d :: t) = (s, d) :: copiesOf t := rfl

@[simp] theorem copiesOf_cons_mkdirs (p : String) (t : List Event) :
    copiesOf (Event.mkdirs p :: t) = copiesOf t := rfl

@[simp] theorem copiesOf_append (a b : List Event) :
    copiesOf (a ++ b) = copiesOf a ++ copiesOf b := List.filterMap_append a b _

@[simp] theorem copiesOf_flatten (L : List (List Event)) :
    copiesOf L.flatten = (L.map copiesOf).flatten := List.filterMap_flatten _ _

@[simp] theorem yieldsOf_nil : yieldsOf [] = [] := rfl

@[simp] theorem yieldsOf_cons_yield (r : List String) (t : List UEvent) :
    yieldsOf (UEvent.walkYield r :: t) = r :: yieldsOf t := rfl

@[simp] theorem yieldsOf_cons_attempt (f k : String) (b : Bool) (t : List UEvent) :
    yieldsOf (UEvent.attempt f k b :: t) = yieldsOf t := rfl

@[simp] theorem yieldsOf_cons_log (l : LogLevel) (m : String) (t : List UEvent) :
    yieldsOf (UEvent.log l m :: t) = yieldsOf t := rfl

@[simp] theorem yieldsOf_append (a b : List UEvent) :
    yieldsOf (a ++ b) = yieldsOf a ++ yieldsOf b := List.filterMap_append a b _

@[simp] theorem yieldsOf_flatten (L : List (List UEvent)) :
    yieldsOf L.flatten = (L.map yieldsOf).flatten := List.filterMap_flatten _ _

@[simp] theorem attemptsOf_nil : attemptsOf [] = [] := rfl

@[simp] theorem attemptsOf_cons_yield (r : List String) (t : List UEvent) :
    attemptsOf (UEvent.walkYield r :: t) = attemptsOf t := rfl

@[simp] theorem attemptsOf_cons_attempt (f k : String) (b : Bool) (t : List UEvent) :
    attemptsOf (UEvent.attempt f k b :: t) = (f, k, b) :: attemptsOf t := rfl

@[simp] theorem attemptsOf_cons_log (l : LogLevel) (m : String) (t : List UEvent) :
    attemptsOf (UEvent.log l m :: t) = attemptsOf t := rfl

@[simp] theorem attemptsOf_append (a b : List UEvent) :
    attemptsOf (a ++ b) = attemptsOf a ++ attemptsOf b := List.filterMap_append a b _

@[simp] theorem attemptsOf_flatten (L : List (List UEvent)) :
    attemptsOf L.flatten = (L.map attemptsOf).flatten := List.filterMap_flatten _ _

namespace BackupK3s

theorem cmdsOf_run_command (env : Env) (c : List String) :
    cmdsOf (run_command env c).2 = [c] := by
  by_cases h : (env.runCmd c).exitCode = 0 <;> simp [run_command, h]

theorem writesOf_run_command (env : Env) (c : List String) :
    writesOf (run_command env c).2 = [] := by
  by_cases h : (env.runCmd c).exitCode = 0 <;> simp [run_command, h]

theorem copiesOf_run_command (env : Env) (c : List String) :
    copiesOf (run_command env c).2 = [] := by
  by_cases h : (env.runCmd c).exitCode = 0 <;> simp [run_command, h]

/-- On non-zero exit, run_command returns the captured stderr text. -/
theorem run_command_fail_returns_stderr (env : Env) (c : List String)
    (h : (env.runCmd c).exitCode ≠ 0) :
    (run_command env c).1 = (env.runCmd c).stderr := by
  simp [run_command, h]

/-- The external commands a collection run invokes, in order: the two
advisory info commands, the snapshot command iff the etcd data directory
exists, then one kubectl export per resource kind. -/
theorem cmdsOf_backup_k3s (env : Env) (p : String) :
    cmdsOf (backup_k3s env p) =
      [["k3s", "--version"], ["systemctl", "is-active", "k3s"]]
      ++ (if env.usesEtcd then
            [["k3s", "etcd-snapshot", "save", "--dir", p ++ "/etcd-backup/etcd"]]
          else [])
      ++ resources.map (fun r => ["kubectl", "get", r, "-A", "-o", "yaml"]) := by
  unfold backup_k3s get_k3s_info
  by_cases h : env.usesEtcd <;> by_cases hm : env.manifestsDirExists <;>
    simp [h, hm, cmdsOf_run_command, apply_ite cmdsOf, Function.comp_def]

/-- The file writes of a collection run, in order: one file per resource
kind at the staging root holding whatever text run_command returned for that
kind, then the k3s_info.txt summary. -/
theorem writesOf_backup_k3s (env : Env) (p : String) :
    writesOf (backup_k3s env p) =
      resources.map (fun r =>
        (p ++ "/" ++ r ++ ".yaml",
         (run_command env ["kubectl", "get", r, "-A", "-o", "yaml"]).1))
      ++ [(p ++ "/k3s_info.txt",
           infoText ⟨(run_command env ["k3s", "--version"]).1, env.usesEtcd,
                     (run_command env ["systemctl", "is-active", "k3s"]).1⟩)] := by
  unfold backup_k3s get_k3s_info
  by_cases h : env.usesEtcd <;> by_cases hm : env.manifestsDirExists <;>
    simp [h, hm, writesOf_run_command, apply_ite writesOf, Function.comp_def]

/-- The shutil.copy2 calls of a collection run, in order: when the manifests
directory exists, exactly the directly-listed entries whose names end in
".yaml", copied under the manifests backup subdirectory; otherwise none. -/
theorem copiesOf_backup_k3s (env : Env) (p : String) :
    copiesOf (backup_k3s env p) =
      if env.manifestsDirExists then
        (env.manifestEntries.filter (fun n => endswith n ".yaml")).map (fun n =>
          (manifests_dir ++ "/" ++ n, p ++ "/manifests-backup/manifests" ++ "/" ++ n))
      else [] := by
  unfold backup_k3s get_k3s_info
  by_cases h : env.usesEtcd <;> by_cases hm : env.manifestsDirExists <;>
    simp [h, hm, copiesOf_run_command, apply_ite copiesOf, Function.comp_def] <;>
  · induction env.manifestEntries with
    | nil => simp
    | cons n ns ih =>
        by_cases hn : endswith n ".yaml" <;> simp [hn, ih]

/-- The completion notice is always the last event of a collection run: the
embedded backup_k3s never raises, because run_command catches the only
exception its body can produce. -/
theorem backup_k3s_completes (env : Env) (p : String) :
    Event.log .info "K3s backup completed successfully" ∈ backup_k3s env p := by
  unfold backup_k3s
  simp

end BackupK3s

@[simp] theorem isAttempt_yield (r : List String) : (UEvent.walkYield r).isAttempt = false := rfl

@[simp] theorem isAttempt_attempt (f k : String) (b : Bool) :
    (UEvent.attempt f k b).isAttempt = true := rfl

@[simp] theorem isAttempt_log (l : LogLevel) (m : String) :
    (UEvent.log l m).isAttempt = false := rfl

@[simp] theorem isYield_yield (r : List String) : (UEvent.walkYield r).isYield = true := rfl

@[simp] theorem isYield_attempt (f k : String) (b : Bool) :
    (UEvent.attempt f k b).isYield = false := rfl

@[simp] theorem isYield_log (l : LogLevel) (m : String) :
    (UEvent.log l m).isYield = false := rfl

@[simp] theorem yieldsOf_map_walkYield (l : List (List String)) :
    yieldsOf (l.map UEvent.walkYield) = l := by
  induction l <;> simp [*]

/-- If a block of events contains no upload attempt, interleaving over the
whole trace reduces to interleaving over the rest. -/
theorem noYieldAfterAttempt_append_left (a b : List UEvent)
    (h : a.all (fun e => ! e.isAttempt) = true) :
    noYieldAfterAttempt (a ++ b) = noYieldAfterAttempt b := by
  induction a with
  | nil => rfl
  | cons e t ih =>
      simp only [List.all_cons, Bool.and_eq_true] at h
      simp only [noYieldAfterAttempt, List.cons_append, List.dropWhile_cons, h.1]
      exact ih h.2

/-- A trace with no walk yield at all trivially has none after an attempt. -/
theorem noYieldAfterAttempt_of_all_noYield (b : List UEvent)
    (h : b.all (fun e => ! e.isYield) = true) : noYieldAfterAttempt b = true := by
  unfold noYieldAfterAttempt
  rw [List.all_eq_true] at h ⊢
  intro e he
  exact h e ((List.dropWhile_sublist _).mem he)

/-- A trace with no upload attempt at all trivially has no yield after one. -/
theorem noYieldAfterAttempt_of_all_noAttempt (b : List UEvent)
    (h : b.all (fun e => ! e.isAttempt) = true) : noYieldAfterAttempt b = true := by
  induction b with
  | nil => rfl
  | cons e t ih =>
      simp only [List.all_cons, Bool.and_eq_true] at h
      simp only [noYieldAfterAttempt, List.dropWhile_cons, h.1]
      exact ih h.2

/-- A trace that splits into an attempt-free phase followed by a yield-free
phase has no yield after an attempt. -/
theorem noYieldAfterAttempt_of_split (evs a b : List UEvent)
    (heq : evs = a ++ b)
    (ha : a.all (fun e => ! e.isAttempt) = true)
    (hb : b.all (fun e => ! e.isYield) = true) :
    noYieldAfterAttempt evs = true := by
  subst heq
  rw [noYieldAfterAttempt_append_left a b ha]
  exact noYieldAfterAttempt_of_all_noYield b hb

@[simp] theorem yieldsOf_map_log {α : Type} (lv : LogLevel) (g : α → String) (l : List α) :
    yieldsOf (l.map (fun a => UEvent.log lv (g a))) = [] := by
  induction l <;> simp [*]

@[simp] theorem all_noYield_map_log {α : Type} (lv : LogLevel) (g : α → String) (l : List α) :
    ((l.map (fun a => UEvent.log lv (g a))).all (fun e => ! e.isYield)) = true := by
  induction l <;> simp [*]

@[simp] theorem attemptsOf_map_log {α : Type} (lv : LogLevel) (g : α → String) (l : List α) :
    attemptsOf (l.map (fun a => UEvent.log lv (g a))) = [] := by
  induction l <;> simp [*]

@[simp] theorem attemptsOf_map_walkYield (l : List (List String)) :
    attemptsOf (l.map UEvent.walkYield) = [] := by
  induction l <;> simp [*]

/-- A copy pair observed by the copiesOf projection comes from a copy2 event
of the trace. -/
theorem mem_of_mem_copiesOf (evs : List Event) (s d : String)
    (h : (s, d) ∈ copiesOf evs) : Event.copy2 s d ∈ evs := by
  rw [copiesOf, List.mem_filterMap] at h
  obtain ⟨e, he, hf⟩ := h
  cases e <;> simp_all

/-- A write pair observed by the writesOf projection comes from a write
event of the trace. -/
theorem mem_of_mem_writesOf (evs : List Event) (p c : String)
    (h : (p, c) ∈ writesOf evs) : Event.write p c ∈ evs := by
  rw [writesOf, List.mem_filterMap] at h
  obtain ⟨e, he, hf⟩ := h
  cases e <;> simp_all

namespace AwsMerged

theorem attemptUpload_snd (env : S3Env) (t : UploadTask) :
    (attemptUpload env t).2 =
      match env.uploadErr t.local_file with
      | none => UploadResult.ok t
      | some e => UploadResult.failed t e := by
  cases h : env.uploadErr t.local_file <;> simp [attemptUpload, h]

@[simp] theorem attemptUpload_task (env : S3Env) (t : UploadTask) :
    ((attemptUpload env t).2).task = t := by
  cases h : env.uploadErr t.local_file <;> simp [attemptUpload, h, UploadResult.task]

@[simp] theorem yieldsOf_attemptUpload (env : S3Env) (t : UploadTask) :
    yieldsOf (attemptUpload env t).1 = [] := by
  cases h : env.uploadErr t.local_file <;> simp [attemptUpload, h]

@[simp] theorem attemptUpload_all_noYield (env : S3Env) (t : UploadTask) :
    ((attemptUpload env t).1.all (fun e => ! e.isYield)) = true := by
  cases h : env.uploadErr t.local_file <;> simp [attemptUpload, h]

@[simp] theorem yieldsOf_verifyEvents (env : S3Env) (bucket pfx : String) :
    yieldsOf (verifyEvents env bucket pfx) = [] := by
  cases h : env.listKeys <;> simp [verifyEvents, h]

@[simp] theorem verifyEvents_all_noYield (env : S3Env) (bucket pfx : String) :
    ((verifyEvents env bucket pfx).all (fun e => ! e.isYield)) = true := by
  cases h : env.listKeys <;> simp [verifyEvents, h]

/-- The upload phase of the merged engine (attempt plus log events, one
block per task) contains no walk yield. -/
theorem all_noYield_upload_block (env : S3Env) (ts : List UploadTask) :
    (((ts.map (attemptUpload env)).map Prod.fst).flatten.all (fun e => ! e.isYield)) = true := by
  induction ts with
  | nil => rfl
  | cons t rest ih =>
      simp only [List.map_cons, List.flatten_cons, List.all_append, Bool.and_eq_true]
      exact ⟨by simp, ih⟩

/-- Per-file results of the merged upload engine on an existing staging
path: one result per walked file, in walk order, each determined only by
that file's own upload outcome. -/
theorem upload_results (sep : String) (env : S3Env) (lp bucket pfx : String)
    (rels : List (List String)) :
    (upload_to_s3 sep env lp bucket pfx true rels).2 =
      rels.map (fun rel => (attemptUpload env (mkTask sep lp pfx rel)).2) := by
  cases rels with
  | nil => simp [upload_to_s3]
  | cons r rs => simp [upload_to_s3, Function.comp_def]

/-- The walk yields of the merged engine on an existing staging path are
exactly the files present, each enumerated once, in walk order. -/
theorem upload_yields (sep : String) (env : S3Env) (lp bucket pfx : String)
    (rels : List (List String)) :
    yieldsOf (upload_to_s3 sep env lp bucket pfx true rels).1 = rels := by
  cases rels with
  | nil => simp [upload_to_s3]
  | cons r rs => simp [upload_to_s3, Function.comp_def]

/-- The merged engine finishes enumeration before the first upload: its
files_to_upload list is fully built by the walk loop before the upload loop
starts, so no walk yield ever follows an upload attempt. -/
theorem upload_enum_first (sep : String) (env : S3Env) (lp bucket pfx : String)
    (localExists : Bool) (rels : List (List String)) :
    noYieldAfterAttempt (upload_to_s3 sep env lp bucket pfx localExists rels).1 = true := by
  cases localExists with
  | false => simp [upload_to_s3, noYieldAfterAttempt, List.dropWhile]
  | true =>
      cases rels with
      | nil =>
          apply noYieldAfterAttempt_of_all_noAttempt
          simp [upload_to_s3]
      | cons r rs =>
          refine noYieldAfterAttempt_of_split _
            ([UEvent.log .info ("Starting upload to S3 bucket " ++ bucket ++ " with prefix " ++ pfx)]
              ++ (r :: rs).map UEvent.walkYield
              ++ [UEvent.log .info
                   ("Found " ++ toString ((r :: rs).map (mkTask sep lp pfx)).length
                     ++ " files to upload")])
            (((((r :: rs).map (mkTask sep lp pfx)).map (attemptUpload env)).map Prod.fst).flatten
              ++ [UEvent.log .info "S3 upload process completed"]
              ++ verifyEvents env bucket pfx)
            ?_ ?_ ?_
          · simp [upload_to_s3, List.append_assoc]
          · simp [List.all_map]
          · simp only [List.all_append, Bool.and_eq_true]
            exact ⟨⟨all_noYield_upload_block env _, by simp⟩, verifyEvents_all_noYield env bucket pfx⟩

@[simp] theorem attemptsOf_attemptUpload (env : S3Env) (t : UploadTask) :
    attemptsOf (attemptUpload env t).1 =
      [(t.local_file, t.s3_key, (env.uploadErr t.local_file).isNone)] := by
  cases h : env.uploadErr t.local_file <;> simp [attemptUpload, h]

@[simp] theorem attemptsOf_verifyEvents (env : S3Env) (bucket pfx : String) :
    attemptsOf (verifyEvents env bucket pfx) = [] := by
  cases h : env.listKeys <;> simp [verifyEvents, h]

/-- The upload attempts of the merged engine on an existing staging path:
exactly one attempt per walked file, in walk order, each made regardless of
the other files' outcomes. -/
theorem upload_attempts (sep : String) (env : S3Env) (lp bucket pfx : String)
    (rels : List (List String)) :
    attemptsOf (upload_to_s3 sep env lp bucket pfx true rels).1 =
      rels.map (fun rel =>
        ((mkTask sep lp pfx rel).local_file, (mkTask sep lp pfx rel).s3_key,
          (env.uploadErr (mkTask sep lp pfx rel).local_file).isNone)) := by
  cases rels with
  | nil => simp [upload_to_s3]
  | cons r rs => simp [upload_to_s3, Function.comp_def]

end AwsMerged

namespace BackupK3s

/-- In the walk-and-upload loop of backup_k3s.py, every attempt's key is the
prefix joined by a literal "/" to the relative path of the file just
yielded: attempts pair up one-to-one, in order, with the walk yields that
actually happened (the loop stops at the first upload exception). -/
theorem uploadLoop_keys (sep : String) (env : S3Env) (lp pfx : String)
    (rels : List (List String)) :
    (attemptsOf (uploadLoop sep env lp pfx rels).1).map (fun x => x.2.1) =
      (yieldsOf (uploadLoop sep env lp pfx rels).1).map
        (fun rel => pfx ++ "/" ++ String.intercalate sep rel) := by
  induction rels with
  | nil => simp [uploadLoop]
  | cons r rs ih =>
      cases h : env.uploadErr (localFileOf sep lp r) <;>
        simp [uploadLoop, h, mkTask, ih]

/-- Same pairing for the whole upload_to_s3 of backup_k3s.py: the leading
and trailing log records contribute no yield or attempt. -/
theorem upload_keys (sep : String) (env : S3Env) (lp bucket pfx : String)
    (rels : List (List String)) :
    (attemptsOf (upload_to_s3 sep env lp bucket pfx rels).1).map (fun x => x.2.1) =
      (yieldsOf (upload_to_s3 sep env lp bucket pfx rels).1).map
        (fun rel => pfx ++ "/" ++ String.intercalate sep rel) := by
  unfold upload_to_s3
  cases h : (uploadLoop sep env lp pfx rels).2 <;>
    simp [h, uploadLoop_keys sep env lp pfx rels]

end BackupK3s

/-! Concrete host environments used in counterexamples and witnesses. -/

/-- A host where every external command succeeds, the etcd data directory is
absent and the manifests directory is absent. -/
def envOk : Env :=
  { runCmd := fun _ => ⟨0, "ok", ""⟩, usesEtcd := false,
    manifestsDirExists := false, manifestEntries := [] }

/-- A host using etcd where the mandatory snapshot command exits 1 with
stderr "snapshot failed" and every other command succeeds. -/
def envSnapFail : Env :=
  { runCmd := fun c =>
      if c = ["k3s", "etcd-snapshot", "save", "--dir", "/backup/etcd-backup/etcd"]
      then ⟨1, "", "snapshot failed"⟩ else ⟨0, "ok", ""⟩,
    usesEtcd := true, manifestsDirExists := false, manifestEntries := [] }

/-- A host whose manifests directory directly lists a .yaml file, a .yml
file and a text file. -/
def envMan : Env :=
  { runCmd := fun _ => ⟨0, "ok", ""⟩, usesEtcd := false,
    manifestsDirExists := true,
    manifestEntries := ["app.yaml", "notes.yml", "readme.txt"] }

/-- A host where the secrets export exits 1 with stderr "forbidden" and
every other command succeeds. -/
def envSecretsFail : Env :=
  { runCmd := fun c =>
      if c = ["kubectl", "get", "secrets", "-A", "-o", "yaml"]
      then ⟨1, "", "forbidden"⟩ else ⟨0, "ok", ""⟩,
    usesEtcd := false, manifestsDirExists := false, manifestEntries := [] }

/-- An object store that accepts every upload. -/
def s3AllOk : S3Env := { uploadErr := fun _ => none, listKeys := some [] }

/-- An object store where uploading /stage/a.yaml raises a network error
and every other upload succeeds. -/
def s3FailFirst : S3Env :=
  { uploadErr := fun f => if f = "/stage/a.yaml" then some "network error" else none,
    listKeys := some [] }

/-! Claim C1. -/

/-- C1: the claim says a failing mandatory snapshot aborts the run with the
failure propagated and no resource-kind export attempted after it.  The code
disagrees: run_command catches subprocess.CalledProcessError and returns the
stderr text, so on a host where the snapshot command exits 1 the collection
run still invokes all seven kubectl exports after the failed snapshot, still
logs the etcd-completion and overall-completion notices, and nothing is
propagated.  This theorem evaluates the embedded code at that failing
input. -/
theorem C1_snapshot_failure_not_fatal :
    cmdsOf (BackupK3s.backup_k3s envSnapFail "/backup") =
      [["k3s", "--version"], ["systemctl", "is-active", "k3s"],
       ["k3s", "etcd-snapshot", "save", "--dir", "/backup/etcd-backup/etcd"],
       ["kubectl", "get", "deployments", "-A", "-o", "yaml"],
       ["kubectl", "get", "services", "-A", "-o", "yaml"],
       ["kubectl", "get", "configmaps", "-A", "-o", "yaml"],
       ["kubectl", "get", "secrets", "-A", "-o", "yaml"],
       ["kubectl", "get", "ingresses", "-A", "-o", "yaml"],
       ["kubectl", "get", "pv", "-A", "-o", "yaml"],
       ["kubectl", "get", "pvc", "-A", "-o", "yaml"]]
    ∧ (envSnapFail.runCmd
        ["k3s", "etcd-snapshot", "save", "--dir", "/backup/etcd-backup/etcd"]).exitCode = 1
    ∧ Event.log .info "Etcd backup completed" ∈ BackupK3s.backup_k3s envSnapFail "/backup"
    ∧ Event.log .info "K3s backup completed successfully"
        ∈ BackupK3s.backup_k3s envSnapFail "/backup" := by
  refine ⟨?_, rfl, ?_, ?_⟩ <;> decide

/-! Claim C5. -/

/-- C5 counterexample: the claim names the kinds persistentvolumes and
persistentvolumeclaims and says the seven file names include
persistentvolumes.yaml and persistentvolumeclaims.yaml.  On a host where
every command succeeds, the files written at staging root "b" include
b/pv.yaml and b/pvc.yaml and do not include b/persistentvolumes.yaml or
b/persistentvolumeclaims.yaml: the source list uses the kubectl short names
pv and pvc. -/
theorem C5_counterexample_short_kind_names :
    "b/pv.yaml" ∈ (writesOf (BackupK3s.backup_k3s envOk "b")).map Prod.fst
    ∧ "b/pvc.yaml" ∈ (writesOf (BackupK3s.backup_k3s envOk "b")).map Prod.fst
    ∧ "b/persistentvolumes.yaml" ∉ (writesOf (BackupK3s.backup_k3s envOk "b")).map Prod.fst
    ∧ "b/persistentvolumeclaims.yaml"
        ∉ (writesOf (BackupK3s.backup_k3s envOk "b")).map Prod.fst := by
  refine ⟨?_, ?_, ?_, ?_⟩ <;> decide

/-- C5 (amended): for each resource kind in the fixed ordered list
deployments, services, configmaps, secrets, ingresses, pv, pvc (the last two
being the kubectl short names for persistent volumes and persistent volume
claims), in that order, collection runs the cluster query scoped to all
namespaces with YAML output and writes the raw output verbatim to
kind.yaml at the staging root — so the seven file names include pv.yaml and
pvc.yaml, not persistentvolumes.yaml and persistentvolumeclaims.yaml. -/
theorem C5_resource_exports (env : Env) (p : String) :
    BackupK3s.resources =
      ["deployments", "services", "configmaps", "secrets", "ingresses", "pv", "pvc"]
    ∧ cmdsOf (BackupK3s.backup_k3s env p) =
        [["k3s", "--version"], ["systemctl", "is-active", "k3s"]]
        ++ (if env.usesEtcd then
              [["k3s", "etcd-snapshot", "save", "--dir", p ++ "/etcd-backup/etcd"]]
            else [])
        ++ BackupK3s.resources.map (fun r => ["kubectl", "get", r, "-A", "-o", "yaml"])
    ∧ writesOf (BackupK3s.backup_k3s env p) =
        BackupK3s.resources.map (fun r =>
          (p ++ "/" ++ r ++ ".yaml",
           (BackupK3s.run_command env ["kubectl", "get", r, "-A", "-o", "yaml"]).1))
        ++ [(p ++ "/k3s_info.txt",
             BackupK3s.infoText
               ⟨(BackupK3s.run_command env ["k3s", "--version"]).1, env.usesEtcd,
                (BackupK3s.run_command env ["systemctl", "is-active", "k3s"]).1⟩)] :=
  ⟨rfl, BackupK3s.cmdsOf_backup_k3s env p, BackupK3s.writesOf_backup_k3s env p⟩

/-! Claim C7. -/

/-- C7: when the etcd data directory is absent, collection invokes only the
two advisory info commands and the seven kubectl exports — no command of the
run mentions etcd-snapshot — a skip notice is recorded, and the run still
reaches its completion notice (the skip is not a failure). -/
theorem C7_no_snapshot_when_etcd_unused (env : Env) (p : String)
    (h : env.usesEtcd = false) :
    cmdsOf (BackupK3s.backup_k3s env p) =
      [["k3s", "--version"], ["systemctl", "is-active", "k3s"]]
      ++ BackupK3s.resources.map (fun r => ["kubectl", "get", r, "-A", "-o", "yaml"])
    ∧ ((cmdsOf (BackupK3s.backup_k3s env p)).all
        (fun c => ! c.contains "etcd-snapshot")) = true
    ∧ Event.log .info "Skipping etcd backup as it is not being used"
        ∈ BackupK3s.backup_k3s env p
    ∧ Event.log .info "K3s backup completed successfully" ∈ BackupK3s.backup_k3s env p := by
  have hc : cmdsOf (BackupK3s.backup_k3s env p) =
      [["k3s", "--version"], ["systemctl", "is-active", "k3s"]]
      ++ BackupK3s.resources.map (fun r => ["kubectl", "get", r, "-A", "-o", "yaml"]) := by
    rw [BackupK3s.cmdsOf_backup_k3s, h]
    simp
  refine ⟨hc, ?_, ?_, BackupK3s.backup_k3s_completes env p⟩
  · rw [hc]
    decide
  · unfold BackupK3s.backup_k3s BackupK3s.get_k3s_info
    simp [h]

/-- C7 witness at a concrete host. -/
theorem C7_witness :
    envOk.usesEtcd = false
    ∧ (cmdsOf (BackupK3s.backup_k3s envOk "b") =
        [["k3s", "--version"], ["systemctl", "is-active", "k3s"]]
        ++ BackupK3s.resources.map (fun r => ["kubectl", "get", r, "-A", "-o", "yaml"])
      ∧ ((cmdsOf (BackupK3s.backup_k3s envOk "b")).all
          (fun c => ! c.contains "etcd-snapshot")) = true
      ∧ Event.log .info "Skipping etcd backup as it is not being used"
          ∈ BackupK3s.backup_k3s envOk "b"
      ∧ Event.log .info "K3s backup completed successfully" ∈ BackupK3s.backup_k3s envOk "b") :=
  ⟨rfl, C7_no_snapshot_when_etcd_unused envOk "b" rfl⟩

/-! Claim C8. -/

/-- C8: if the static manifests directory exists, every directly listed
entry whose name ends in .yaml is passed to shutil.copy2 (a copy that keeps
the filename and preserves file metadata/timestamps) with destination under
the manifests-backup/manifests subdirectory; if the directory does not
exist, a warning notice is recorded and the run still reaches its completion
notice. -/
theorem C8_manifest_copy (env : Env) (p : String) :
    (env.manifestsDirExists = true → ∀ n ∈ env.manifestEntries, BackupK3s.endswith n ".yaml" = true →
      Event.copy2 (BackupK3s.manifests_dir ++ "/" ++ n)
          (p ++ "/manifests-backup/manifests" ++ "/" ++ n) ∈ BackupK3s.backup_k3s env p)
    ∧ (env.manifestsDirExists = false →
        Event.log .warning ("Manifests directory not found: " ++ BackupK3s.manifests_dir)
          ∈ BackupK3s.backup_k3s env p)
    ∧ Event.log .info "K3s backup completed successfully" ∈ BackupK3s.backup_k3s env p := by
  refine ⟨?_, ?_, BackupK3s.backup_k3s_completes env p⟩
  · intro hm n hn hy
    apply mem_of_mem_copiesOf
    rw [BackupK3s.copiesOf_backup_k3s, if_pos hm]
    exact List.mem_map.2 ⟨n, List.mem_filter.2 ⟨hn, hy⟩, rfl⟩
  · intro hm
    unfold BackupK3s.backup_k3s BackupK3s.get_k3s_info
    simp [hm]

/-- C8 witness at two concrete hosts: one with a manifests directory (the
.yaml entry is copied) and one without (the notice is recorded). -/
theorem C8_witness :
    envMan.manifestsDirExists = true
    ∧ "app.yaml" ∈ envMan.manifestEntries
    ∧ BackupK3s.endswith "app.yaml" ".yaml" = true
    ∧ Event.copy2 (BackupK3s.manifests_dir ++ "/" ++ "app.yaml")
        ("/b" ++ "/manifests-backup/manifests" ++ "/" ++ "app.yaml")
        ∈ BackupK3s.backup_k3s envMan "/b"
    ∧ envOk.manifestsDirExists = false
    ∧ Event.log .warning ("Manifests directory not found: " ++ BackupK3s.manifests_dir)
        ∈ BackupK3s.backup_k3s envOk "/b" :=
  ⟨rfl, by decide, by decide,
   (C8_manifest_copy envMan "/b").1 rfl "app.yaml" (by decide) (by decide),
   rfl, (C8_manifest_copy envOk "/b").2.1 rfl⟩

/-! Claim C9. -/

/-- C9: for every resource kind in the export loop, a file kind.yaml is
written at the staging root even when the export command fails; in that case
its content is the failed command's captured stderr text (run_command
returns e.stderr), so the existence of the file does not imply the export
succeeded. -/
theorem C9_failed_export_writes_stderr (env : Env) (p r : String)
    (hr : r ∈ BackupK3s.resources)
    (h : (env.runCmd ["kubectl", "get", r, "-A", "-o", "yaml"]).exitCode ≠ 0) :
    Event.write (p ++ "/" ++ r ++ ".yaml")
        ((env.runCmd ["kubectl", "get", r, "-A", "-o", "yaml"]).stderr)
      ∈ BackupK3s.backup_k3s env p := by
  apply mem_of_mem_writesOf
  rw [BackupK3s.writesOf_backup_k3s]
  refine List.mem_append.2 (Or.inl ?_)
  refine List.mem_map.2 ⟨r, hr, ?_⟩
  rw [BackupK3s.run_command_fail_returns_stderr env _ h]

/-- C9 witness: with the secrets export failing, b/secrets.yaml is written
with the stderr text "forbidden" as its content. -/
theorem C9_witness :
    "secrets" ∈ BackupK3s.resources
    ∧ (envSecretsFail.runCmd ["kubectl", "get", "secrets", "-A", "-o", "yaml"]).exitCode ≠ 0
    ∧ Event.write ("/b" ++ "/" ++ "secrets" ++ ".yaml")
        ((envSecretsFail.runCmd ["kubectl", "get", "secrets", "-A", "-o", "yaml"]).stderr)
        ∈ BackupK3s.backup_k3s envSecretsFail "/b" :=
  ⟨by decide, by decide,
   C9_failed_export_writes_stderr envSecretsFail "/b" "secrets" (by decide) (by decide)⟩

/-! Claim C10. -/

/-- C10: the manifest-copy step is non-recursive and extension-exact — the
copy2 calls of a run are exactly the entries listed directly in the
manifests directory whose names end in the literal suffix .yaml, so a .yml
entry is never copied and no path below a subdirectory is ever consulted. -/
theorem C10_manifest_copy_exact (env : Env) (p : String)
    (h : env.manifestsDirExists = true) :
    copiesOf (BackupK3s.backup_k3s env p) =
      (env.manifestEntries.filter (fun n => BackupK3s.endswith n ".yaml")).map (fun n =>
        (BackupK3s.manifests_dir ++ "/" ++ n,
         p ++ "/manifests-backup/manifests" ++ "/" ++ n)) := by
  rw [BackupK3s.copiesOf_backup_k3s, if_pos h]

/-- C10 witness: with direct entries app.yaml, notes.yml and readme.txt,
exactly the single .yaml entry is copied. -/
theorem C10_witness :
    envMan.manifestsDirExists = true
    ∧ copiesOf (BackupK3s.backup_k3s envMan "/b") =
        [("/var/lib/rancher/k3s/server/manifests/app.yaml",
          "/b/manifests-backup/manifests/app.yaml")] :=
  ⟨rfl, by rw [C10_manifest_copy_exact envMan "/b" rfl]; decide⟩

/-! Claim C2. -/

/-- C2 counterexample: the claim, which also covers the upload_to_s3 of
backup_k3s.py, fails there.  With N = 2 files staged and the first upload
raising a network error, the exception propagates out of the un-guarded
upload loop: only one attempt is made, the second file is never attempted,
and no result sequence of length 2 exists. -/
theorem C2_counterexample_k3s_upload_aborts :
    (BackupK3s.upload_to_s3 "/" s3FailFirst "/stage" "bkt" "pfx"
        [["a.yaml"], ["b.yaml"]]).2 = some "network error"
    ∧ attemptsOf (BackupK3s.upload_to_s3 "/" s3FailFirst "/stage" "bkt" "pfx"
        [["a.yaml"], ["b.yaml"]]).1 = [("/stage/a.yaml", "pfx/a.yaml", false)] := by
  refine ⟨?_, ?_⟩ <;> decide

/-- C2 (amended): in the merged script's upload engine the claimed property
holds — for a staging area with N files the result sequence has length N,
the result for each file is determined solely by that file's own upload
outcome, and one failure does not prevent the remaining attempts; in
backup_k3s.py's own upload_to_s3 an upload exception instead propagates and
prevents all remaining attempts. -/
theorem C2_merged_upload_independent (sep : String) (env : S3Env)
    (lp bucket pfx : String) (rels : List (List String)) :
    ((AwsMerged.upload_to_s3 sep env lp bucket pfx true rels).2).length = rels.length
    ∧ (AwsMerged.upload_to_s3 sep env lp bucket pfx true rels).2 =
        rels.map (fun rel =>
          match env.uploadErr (localFileOf sep lp rel) with
          | none => UploadResult.ok (AwsMerged.mkTask sep lp pfx rel)
          | some e => UploadResult.failed (AwsMerged.mkTask sep lp pfx rel) e) := by
  refine ⟨?_, ?_⟩
  · rw [AwsMerged.upload_results]
    simp
  · rw [AwsMerged.upload_results]
    apply List.map_congr_left
    intro rel _
    rw [AwsMerged.attemptUpload_snd]
    rfl

/-! Claim C3. -/

/-- C3 counterexample: the claim requires forward-slash keys on every host
path convention, with localRoot/a/b.yaml and prefix backup_X mapping to
backup_X/a/b.yaml.  On a host whose separator is the backslash, the merged
engine (os.path.join of prefix and os.path.relpath output) produces the key
with backslashes throughout, and backup_k3s.py (an f-string with one literal
slash over the os.path.relpath output) produces a backslash inside the
relative part — neither equals backup_X/a/b.yaml. -/
theorem C3_counterexample_host_separator :
    ((AwsMerged.upload_to_s3 "\\" s3AllOk "localRoot" "bkt" "backup_X" true
        [["a", "b.yaml"]]).2).map (fun r => r.task.s3_key) = ["backup_X\\a\\b.yaml"]
    ∧ "backup_X\\a\\b.yaml" ≠ "backup_X/a/b.yaml"
    ∧ (attemptsOf (BackupK3s.upload_to_s3 "\\" s3AllOk "localRoot" "bkt" "backup_X"
        [["a", "b.yaml"]]).1).map (fun x => x.2.1) = ["backup_X/a\\b.yaml"]
    ∧ "backup_X/a\\b.yaml" ≠ "backup_X/a/b.yaml" := by
  refine ⟨?_, ?_, ?_, ?_⟩ <;> decide

/-- C3 (amended): on hosts whose path separator is the forward slash (the
POSIX convention both scripts actually target), every remote key is exactly
the prefix, a forward slash, and the file's slash-separated path relative to
the staging root: in the merged engine this holds for the key of every
result, and in backup_k3s.py's engine for the key of every attempt, paired
in order with the walk yield it came from.  On other host conventions the
key instead contains the host separator. -/
theorem C3_posix_keys (env : S3Env) (lp bucket pfx : String)
    (rels : List (List String)) :
    ((AwsMerged.upload_to_s3 "/" env lp bucket pfx true rels).2).map
        (fun r => r.task.s3_key)
      = rels.map (fun rel => pfx ++ "/" ++ String.intercalate "/" rel)
    ∧ (attemptsOf (BackupK3s.upload_to_s3 "/" env lp bucket pfx rels).1).map
        (fun x => x.2.1)
      = (yieldsOf (BackupK3s.upload_to_s3 "/" env lp bucket pfx rels).1).map
          (fun rel => pfx ++ "/" ++ String.intercalate "/" rel) := by
  refine ⟨?_, BackupK3s.upload_keys "/" env lp bucket pfx rels⟩
  rw [AwsMerged.upload_results, List.map_map]
  apply List.map_congr_left
  intro rel _
  simp [AwsMerged.mkTask]

/-! Claim C4. -/

/-- C4 counterexample: the claim says enumeration is never incrementally
interleaved with uploading; backup_k3s.py's upload loop uploads each file as
os.walk yields it.  With two staged files and every upload succeeding, the
full trace interleaves yield, attempt, yield, attempt — after the first
attempt the walk still yields the second file. -/
theorem C4_counterexample_interleaved :
    (BackupK3s.upload_to_s3 "/" s3AllOk "/stage" "bkt" "pfx"
        [["a.yaml"], ["b.yaml"]]).1 =
      [UEvent.log .info "Uploading backup to S3 bucket bkt with prefix pfx",
       UEvent.walkYield ["a.yaml"],
       UEvent.attempt "/stage/a.yaml" "pfx/a.yaml" true,
       UEvent.walkYield ["b.yaml"],
       UEvent.attempt "/stage/b.yaml" "pfx/b.yaml" true,
       UEvent.log .info "S3 upload completed successfully"]
    ∧ noYieldAfterAttempt (BackupK3s.upload_to_s3 "/" s3AllOk "/stage" "bkt" "pfx"
        [["a.yaml"], ["b.yaml"]]).1 = false := by
  refine ⟨?_, ?_⟩ <;> decide

/-- C4 (amended): in the merged script's upload engine the claimed property
holds — the walk enumerates exactly the files present under the staging root
at walk time, once each and in walk order, the complete task list is built
before any upload so no walk yield ever follows an upload attempt, and every
attempted task comes from exactly one walked file; in backup_k3s.py's own
upload_to_s3 enumeration is instead interleaved with uploading. -/
theorem C4_merged_enumeration_once (sep : String) (env : S3Env)
    (lp bucket pfx : String) (rels : List (List String)) :
    yieldsOf (AwsMerged.upload_to_s3 sep env lp bucket pfx true rels).1 = rels
    ∧ noYieldAfterAttempt (AwsMerged.upload_to_s3 sep env lp bucket pfx true rels).1 = true
    ∧ attemptsOf (AwsMerged.upload_to_s3 sep env lp bucket pfx true rels).1 =
        rels.map (fun rel =>
          ((AwsMerged.mkTask sep lp pfx rel).local_file,
           (AwsMerged.mkTask sep lp pfx rel).s3_key,
           (env.uploadErr (AwsMerged.mkTask sep lp pfx rel).local_file).isNone)) :=
  ⟨AwsMerged.upload_yields sep env lp bucket pfx rels,
   AwsMerged.upload_enum_first sep env lp bucket pfx true rels,
   AwsMerged.upload_attempts sep env lp bucket pfx rels⟩

/-! Claim C6. -/

/-- C6 counterexample: the claim says a missing staging root is logged as  a
warning.  In the merged engine a missing root produces exactly a start
notice and an error-level record — no warning record exists in the trace —
though the result sequence is indeed empty and nothing is raised. -/
theorem C6_counterexample_missing_root_logs_error :
    (AwsMerged.upload_to_s3 "/" s3AllOk "/gone" "bkt" "pfx" false []).1 =
      [UEvent.log .info "Starting upload to S3 bucket bkt with prefix pfx",
       UEvent.log .error "Local backup path does not exist: /gone"]
    ∧ (AwsMerged.upload_to_s3 "/" s3AllOk "/gone" "bkt" "pfx" false []).2 = [] := by
  refine ⟨?_, ?_⟩ <;> decide

/-- C6 (amended): a missing staging root makes the merged engine return an
empty result sequence after logging at error (not warning) level, without
raising; a staging root with zero files makes it return an empty result
sequence after logging a warning; and backup_k3s.py's engine completes with
no exception on an empty walk.  Neither case raises or is treated as an
engine error. -/
theorem C6_empty_upload (sep : String) (env : S3Env) (lp bucket pfx : String)
    (rels : List (List String)) :
    (AwsMerged.upload_to_s3 sep env lp bucket pfx false rels).2 = []
    ∧ UEvent.log .error ("Local backup path does not exist: " ++ lp)
        ∈ (AwsMerged.upload_to_s3 sep env lp bucket pfx false rels).1
    ∧ (rels = [] →
        (AwsMerged.upload_to_s3 sep env lp bucket pfx true rels).2 = []
        ∧ UEvent.log .warning ("No files found to upload in " ++ lp)
            ∈ (AwsMerged.upload_to_s3 sep env lp bucket pfx true rels).1
        ∧ (BackupK3s.upload_to_s3 sep env lp bucket pfx rels).2 = none) := by
  refine ⟨?_, ?_, ?_⟩
  · simp [AwsMerged.upload_to_s3]
  · simp [AwsMerged.upload_to_s3]
  · rintro rfl
    refine ⟨?_, ?_, ?_⟩
    · simp [AwsMerged.upload_to_s3]
    · simp [AwsMerged.upload_to_s3]
    · simp [BackupK3s.upload_to_s3, BackupK3s.uploadLoop]

/-- C6 witness at a concrete empty staging area. -/
theorem C6_witness :
    ([] : List (List String)) = []
    ∧ ((AwsMerged.upload_to_s3 "/" s3AllOk "/empty" "bkt" "pfx" true []).2 = []
      ∧ UEvent.log .warning ("No files found to upload in " ++ "/empty")
          ∈ (AwsMerged.upload_to_s3 "/" s3AllOk "/empty" "bkt" "pfx" true []).1
      ∧ (BackupK3s.upload_to_s3 "/" s3AllOk "/empty" "bkt" "pfx" []).2 = none) :=
  ⟨rfl, (C6_empty_upload "/" s3AllOk "/empty" "bkt" "pfx" []).2.2 rfl⟩

end K3sBackupSpec
